import Mathlib

/-!
Shallow embedding of `src/wattle.py` (module `wattle`): the `Split_Test`
and `Node` classes, together with the `Branch` edge class that the module's
tests import from `src.wattle` but that is absent from the source file
(modelled from the spec).  Python runtime errors are made explicit through
an `Except PyErr` result type; machine behaviour follows Python 3
semantics (the repository's own test suite expects `73.5` from integer
midpoint division, which requires Python 3 true division).
-/

namespace Wattle

/-- The Python exception classes raised by the embedded code.  The embedding
drops the message payloads; each constructor corresponds to one exception
class (`ValueError`, `NameError`, `AttributeError`, `KeyError`,
`TypeError`). -/
inductive PyErr where
  | valueError
  | nameError
  | attributeError
  | keyError
  | typeError
deriving DecidableEq, Repr

/-- Embedded `Split_Test` (wattle.py lines 15-49).  All four fields default
to `None` in the source constructor, hence the `Option` types.  The source
field named `attribute` is rendered `attr` because `attribute` is a Lean
keyword.  Data values handled by the embedding are numeric, so
`split_value` is an optional rational. -/
structure Split_Test where
  attribute_type : Option String
  attr : Option String
  split_value : Option Rat
  operator : Option String
deriving DecidableEq, Repr

/-- A pandas `DataFrame` restricted to what the embedded code consumes:
named columns of numeric values, in column order.  All columns being
numeric, pandas `_get_numeric_data().columns` returns every column. -/
structure DFrame where
  cols : List (String × List Rat)
deriving DecidableEq, Repr

/-- The column labels, in order (`list(df)` / `df.columns` in pandas). -/
def DFrame.columns (d : DFrame) : List String := d.cols.map Prod.fst

/-- Column selection `df[name]`; `none` corresponds to a pandas `KeyError`. -/
def DFrame.col (d : DFrame) (name : String) : Option (List Rat) :=
  d.cols.lookup name

/-- Column labels of an optional frame; `[]` when no data was provided. -/
def columnsOf : Option DFrame → List String
  | none => []
  | some d => d.columns

/-- Accumulator recursion for `pdUnique`: keep the first occurrence of
each value not seen so far. -/
def pdUniqueAux (seen : List Rat) : List Rat → List Rat
  | [] => []
  | x :: xs =>
    if x ∈ seen then pdUniqueAux seen xs
    else x :: pdUniqueAux (x :: seen) xs

/-- pandas `Series.unique()`: the distinct values in order of first
appearance (pandas documents appearance order; it does not sort). -/
def pdUnique (l : List Rat) : List Rat := pdUniqueAux [] l

/-- The midpoint enumeration of `get_possible_splits` (wattle.py lines
354-357): `a_values = unique[1:]`, `b_values = unique[:-1]`, and the list
of `(a + b) / 2`. -/
def midpoints (u : List Rat) : List Rat :=
  List.zipWith (fun a b => (a + b) / 2) (u.drop 1) (u.dropLast)

/-- Number of occurrences of `v` in a column. -/
def countOf (l : List Rat) (v : Rat) : Nat :=
  (l.filter fun y => y == v).length

/-- Python `str` of a numeric value as used for class-support keys
(wattle.py line 163); integral rationals print as integers. -/
def ratStr (q : Rat) : String :=
  if q.den = 1 then toString q.num else toString q

/-- Insertion step of a descending sort by count, used to model the
descending-count ordering of pandas `value_counts`. -/
def insertDesc (p : String × Nat) : List (String × Nat) → List (String × Nat)
  | [] => [p]
  | q :: qs => if p.2 > q.2 then p :: q :: qs else q :: insertDesc p qs

/-- pandas `value_counts().to_dict()` with stringified keys (wattle.py
lines 162-163): one entry per distinct value with its count, ordered by
descending count (ties in an unspecified order, as in pandas). -/
def value_counts (vals : List Rat) : List (String × Nat) :=
  ((pdUnique vals).map fun v => (ratStr v, countOf vals v)).foldr insertDesc []

/-- The membership test `column in categorical_indexes` of wattle.py line
186: `column` is an integer position while `categorical_indexes` holds
column names (strings); in Python 3 an `int` never equals a `str`, so the
test is always false. -/
def intInStrList (_ : Nat) (_ : List String) : Bool := false

/-- The `attribute_types` computation of `Node.__init__` (wattle.py lines
180-189).  `numerical_columns` is what `data._get_numeric_data().columns`
returns; `categorical_indexes` is the set difference of names, and every
integer position fails the name-membership test, so every column is typed
`'numerical'`. -/
def attribute_types_of (columns numerical_columns : List String) :
    List String :=
  let categorical_indexes :=
    columns.filter fun c => !(numerical_columns.contains c)
  (List.range columns.length).map fun i =>
    if intInStrList i categorical_indexes then "categorical" else "numerical"

mutual

/-- Embedded `Node` object state (wattle.py lines 105-190), one field per
Python attribute, in source order. -/
inductive Node where
  | mk (data_points : Option DFrame) (class_attribute : Option String)
      (is_leaf : Bool) (is_root : Bool) (parent : Option Node)
      (children : List Node) (child_branches : List Branch)
      (class_supports : List (String × Nat)) (parent_branch : Option Branch)
      (attribute_types : List String) : Node

/-- Modelled from the spec: the `Branch` class, which `src/wattle.py` uses
(`Branch(self, child, test)`) and whose tests import it from `src.wattle`,
but which is absent from the source file.  Per the spec it is an edge
binding a parent `Node`, a child `Node`, and the `Split_Test` that produced
it. -/
inductive Branch where
  | mk (parent : Node) (child : Node) (split_test : Split_Test) : Branch

end

def Node.data_points : Node → Option DFrame
  | .mk d _ _ _ _ _ _ _ _ _ => d

def Node.class_attribute : Node → Option String
  | .mk _ c _ _ _ _ _ _ _ _ => c

def Node.is_leaf : Node → Bool
  | .mk _ _ l _ _ _ _ _ _ _ => l

def Node.is_root : Node → Bool
  | .mk _ _ _ r _ _ _ _ _ _ => r

def Node.parent : Node → Option Node
  | .mk _ _ _ _ p _ _ _ _ _ => p

def Node.children : Node → List Node
  | .mk _ _ _ _ _ c _ _ _ _ => c

def Node.child_branches : Node → List Branch
  | .mk _ _ _ _ _ _ b _ _ _ => b

def Node.class_supports : Node → List (String × Nat)
  | .mk _ _ _ _ _ _ _ s _ _ => s

def Node.parent_branch : Node → Option Branch
  | .mk _ _ _ _ _ _ _ _ pb _ => pb

def Node.attribute_types : Node → List String
  | .mk _ _ _ _ _ _ _ _ _ t => t

def Branch.parent : Branch → Node
  | .mk p _ _ => p

def Branch.child : Branch → Node
  | .mk _ c _ => c

def Branch.split_test : Branch → Split_Test
  | .mk _ _ t => t

/-- Embedded `Node.__init__` (wattle.py lines 124-189) without the
`build=True` branch (line 175), which no claim exercises.  Lines 150-156
set `is_leaf = True`, `is_root = False` and `parent = None` unconditionally:
the `is_root` and `parent` arguments are accepted and discarded.  Because
`self.is_root` was just set to `False`, the guard on line 168 always takes
the branch that stores the `parent_branch` argument.  The class supports
come from `data[class_attribute].value_counts()`, raising `KeyError` when
the class column is absent; `attribute_types` is computed only when data
was provided. -/
def Node.init (data : Option DFrame) (class_attribute : Option String)
    (is_root : Bool) (parent : Option Node)
    (parent_branch : Option Branch) : Except PyErr Node :=
  match data, class_attribute with
  | some d, some ca =>
    match d.col ca with
    | none => .error .keyError
    | some vals =>
      .ok (.mk data class_attribute true false none [] []
        (value_counts vals) parent_branch
        (attribute_types_of d.columns d.columns))
  | _, _ =>
    .ok (.mk data class_attribute true false none [] [] [] parent_branch
      (attribute_types_of (columnsOf data) (columnsOf data)))

/-- Embedded `Node.split` (wattle.py lines 191-300).  A non-leaf raises
`ValueError` (line 213).  A `None` test returns `False` (line 222).  A
categorical test evaluates `test.attribute_name` (line 229), an attribute
`Split_Test` does not define, raising `AttributeError`.  A numerical test
evaluates the bare name `data_points` (line 262), which is not bound in
the function, raising `NameError`.  Any other `attribute_type` skips both
branches, leaving `children` empty, so the final guard (lines 295-300)
returns `False` without mutating the node.  `split_func_args` is embedded
by currying it into `split_func`. -/
def Node.split (n : Node) (split_func : Node → Option Split_Test) :
    Except PyErr (Node × Bool) :=
  if n.is_leaf = false then .error .valueError
  else
    match split_func n with
    | none => .ok (n, false)
    | some test =>
      if test.attribute_type = some "categorical" then .error .attributeError
      else if test.attribute_type = some "numerical" then .error .nameError
      else .ok (n, false)

/-- The mutation performed by a successful prune (wattle.py lines 322-324):
`children = []`, `is_leaf = True`, `child_branches = []`, all other fields
unchanged. -/
def Node.pruned : Node → Node
  | .mk d ca _ ir p _ _ s pb t => .mk d ca true ir p [] [] s pb t

/-- Embedded `Node.prune` (wattle.py lines 302-327): raises `ValueError`
when some child is not a leaf, otherwise consults `prune_func` and either
performs the prune mutation and returns `True`, or returns `False` with no
mutation.  `prune_func_args` is embedded by currying it into
`prune_func`. -/
def Node.prune (n : Node) (prune_func : Node → Bool) :
    Except PyErr (Node × Bool) :=
  if !(n.children.all Node.is_leaf) then .error .valueError
  else if prune_func n then .ok (n.pruned, true)
  else .ok (n, false)

/-- Embedded `Node.get_possible_splits` (wattle.py lines 329-364).  Line
344 evaluates `list(self.data_points)`, which raises `TypeError` when no
data was provided.  For each column position: a categorical type appends
one categorical test with no value; a numerical type appends one numerical
test per midpoint of adjacent values of `column.unique()` (appearance
order, unsorted).  The `getD` defaults are never hit on nodes built by
`Node.init`, whose `attribute_types` has one entry per column. -/
def Node.get_possible_splits (n : Node) : Except PyErr (List Split_Test) :=
  match n.data_points with
  | none => .error .typeError
  | some d =>
    let attribute_names := d.columns
    .ok ((List.range n.attribute_types.length).flatMap fun index =>
      if n.attribute_types.getD index "" = "categorical" then
        [⟨some "categorical", some (attribute_names.getD index ""),
          none, none⟩]
      else if n.attribute_types.getD index "" = "numerical" then
        (midpoints (pdUnique ((d.col (attribute_names.getD index "")).getD
            []))).map fun v =>
          ⟨some "numerical", some (attribute_names.getD index ""),
            some v, none⟩
      else [])

/-- Overwrite of the `parent_branch` attribute, as done by
`child.parent_branch = parent_branch` in `Node.split` (wattle.py lines
251 and 289). -/
def Node.set_parent_branch : Node → Option Branch → Node
  | .mk d ca l r p c cb s _ t, pb => .mk d ca l r p c cb s pb t

/-- The child-construction sequence of `Node.split` (wattle.py lines
246-252, non-recursive path): construct the child with `parent=self`,
create `Branch(self, child, test)`, and assign the child's
`parent_branch`. -/
def make_split_child (self_node : Node) (data : Option DFrame)
    (class_attribute : Option String) (test : Split_Test) :
    Except PyErr (Node × Branch) :=
  match Node.init data class_attribute false (some self_node) none with
  | .error e => .error e
  | .ok child0 =>
    let b : Branch := .mk self_node child0 test
    .ok (child0.set_parent_branch (some b), b)

/-- Embedded `Node.num_positive` (wattle.py lines 397-410):
`self.class_supports[positive_class]`, raising `KeyError` when the key is
absent. -/
def Node.num_positive (n : Node) (positive_class : String) :
    Except PyErr Nat :=
  match n.class_supports.lookup positive_class with
  | none => .error .keyError
  | some v => .ok v

/-- Embedded `Node.num_negative` (wattle.py lines 412-423): the sum of all
supports whose key differs from the positive class. -/
def Node.num_negative (n : Node) (positive_class : String) : Nat :=
  ((n.class_supports.filter fun kv => kv.1 != positive_class).map
    Prod.snd).sum

/-- Embedded `Node.num_errors` (wattle.py lines 425-485).  The two
`datacost` collaborator functions are passed as parameters (the `datacost`
package is an external dependency, not part of this repository).
Cost-sensitive: any of the four cost keys missing raises `ValueError`
(lines 460-461); otherwise the positive support is looked up (a `KeyError`
when the positive class is absent) and the cheaper labelling's opposite
count is returned, ties labelling positive (lines 474-477).
Non-cost-sensitive: `max` of an empty dict raises `ValueError`; otherwise
the very next expression calls `supports.iteritems()` (line 482), a method
that does not exist on Python 3 dictionaries, raising `AttributeError`
when the generator's outermost iterable is evaluated. -/
def Node.num_errors (n : Node)
    (cost_labelling_positive cost_labelling_negative :
      Nat → Nat → List (String × Rat) → Rat)
    (cost_sensitive : Bool) (cost_matrix : List (String × Rat))
    (positive_class : String) : Except PyErr Nat :=
  if cost_sensitive then
    if !(["TP", "TN", "FP", "FN"].all fun k =>
        (cost_matrix.lookup k).isSome) then
      .error .valueError
    else
      match n.num_positive positive_class with
      | .error e => .error e
      | .ok np =>
        let nn := n.num_negative positive_class
        let cost_positive := cost_labelling_positive np nn cost_matrix
        let cost_negative := cost_labelling_negative np nn cost_matrix
        if cost_positive ≤ cost_negative then .ok nn else .ok np
  else
    match n.class_supports with
    | [] => .error .valueError
    | _ :: _ => .error .attributeError

/-! Concrete fixtures used by the claim theorems. -/

/-- The spec's scenario dataset: one numeric column `LOC` with records
`50, 80, 90, 60` and binary class column `Defective` with values
`0, 1, 1, 0`. -/
def scenarioFrame : DFrame :=
  ⟨[("LOC", [50, 80, 90, 60]), ("Defective", [0, 1, 1, 0])]⟩

/-- A bare node, as produced by `Node()` with no arguments. -/
def fallbackNode : Node := .mk none none true false none [] [] [] none []

/-- The root node over the scenario dataset, produced by the embedded
constructor. -/
def scenarioRoot : Node :=
  match Node.init (some scenarioFrame) (some "Defective") false none none with
  | .ok n => n
  | .error _ => fallbackNode

/-- A numerical split test on `LOC` at threshold `70`. -/
def testLOC70 : Split_Test := ⟨some "numerical", some "LOC", some 70, none⟩

/-- A numerical split test on `LOC` at threshold `73.5`, the value the
repository's own test suite expects. -/
def testLOC735 : Split_Test :=
  ⟨some "numerical", some "LOC", some (147 / 2), none⟩

/-- A categorical split test on column `c`, with no value bound yet (the
shape `get_possible_splits` produces for categorical columns). -/
def testCatC : Split_Test := ⟨some "categorical", some "c", none, none⟩

/-- A node over a column `c` with a single observed value. -/
def constColumnNode : Node :=
  match Node.init (some ⟨[("c", [1, 1, 1])]⟩) none false none none with
  | .ok n => n
  | .error _ => fallbackNode

/-- The `LOC <= 70` partition of the scenario data. -/
def leftFrame : DFrame := ⟨[("LOC", [50, 60]), ("Defective", [0, 0])]⟩

/-- The child and branch built by the child-construction sequence of
`Node.split` when `scenarioRoot` is split on `testLOC70`, left partition. -/
def c3pair : Node × Branch :=
  match make_split_child scenarioRoot (some leftFrame) (some "Defective")
      testLOC70 with
  | .ok p => p
  | .error _ => (fallbackNode, .mk fallbackNode fallbackNode testLOC70)

/-- A node over a single column `X` whose values are observed as `3` then
`1`. -/
def witnessColumnNode : Node :=
  match Node.init (some ⟨[("X", [3, 1])]⟩) none false none none with
  | .ok n => n
  | .error _ => fallbackNode

/-- A node whose class supports are `{Y : 35, N : 11}`, as in the spec's
`numErrors` scenario. -/
def suppNode : Node :=
  .mk none none true false none [] [] [("Y", 35), ("N", 11)] none []

/-- A node that is not a leaf (as a node becomes after a successful
split). -/
def nonLeafNode : Node := .mk none none false false none [] [] [] none []

/-- Boolean success test on an embedded Python result: `true` when no
exception was raised. -/
def exOk {α : Type} : Except PyErr α → Bool
  | .ok _ => true
  | .error _ => false

/-! Claim theorems. -/

/-- C1: the claimed success postcondition of `split` (non-leaf, non-empty
`children`, index-aligned `child_branches`) is unreachable: on the
scenario leaf with a numerical test, `split` raises `NameError` (the bare
name `data_points` at wattle.py line 262); moreover no statement of
`split` ever appends to `child_branches`, contradicting the repository's
own test `test_split_made`, which reads `node.child_branches` after a
successful split. -/
theorem split_numerical_test_raises_name_error :
    scenarioRoot.split (fun _ => some testLOC70) =
      .error .nameError ∧ scenarioRoot.is_leaf = true := by
  constructor <;> rfl

/-- C2: the claimed two-children numerical split with complementary
operators never happens: splitting the scenario leaf on the numerical test
`LOC <= 73.5` raises `NameError` (bare name `data_points`, wattle.py line
262) before any child or branch is created. -/
theorem split_numerical_complementarity_crashes :
    scenarioRoot.split (fun _ => some testLOC735) = .error .nameError := by
  rfl

/-- C4: a split test expected to produce zero child partitions (here a
categorical test over a column with a single observed value) does not make
`split` return `false` leaving the leaf unchanged: `split` raises
`AttributeError` (the access `test.attribute_name` at wattle.py line 229,
an attribute `Split_Test` does not define) before the empty-children guard
at lines 295-300 is ever reached. -/
theorem split_vacuous_categorical_raises :
    constColumnNode.split (fun _ => some testCatC) =
      .error .attributeError ∧ constColumnNode.is_leaf = true := by
  constructor <;> rfl

/-- C8: non-cost-sensitive `num_errors` on a node with supports
`{Y : 35, N : 11}` does not return the minority count `11`: after
computing the majority label, line 482 calls `supports.iteritems()`, a
method Python 3 dictionaries do not have, raising `AttributeError`. -/
theorem num_errors_majority_raises_attribute_error :
    suppNode.num_errors (fun _ _ _ => 0) (fun _ _ _ => 0) false [] "" =
      .error .attributeError := by
  rfl

/-- C6: `split` raises `ValueError` (the `InvalidState` error of the spec)
exactly when the node is not a leaf, for every split strategy; a non-leaf
is rejected immediately with the exception rather than a `false` return. -/
theorem split_value_error_iff_not_leaf (n : Node)
    (f : Node → Option Split_Test) :
    n.split f = .error .valueError ↔ n.is_leaf = false := by
  cases h : n.is_leaf with
  | false => simp [Node.split, h]
  | true =>
    cases hf : f n with
    | none => simp [Node.split, h, hf]
    | some t =>
      by_cases hc : t.attribute_type = some "categorical"
      · simp [Node.split, h, hf, hc]
      · by_cases hn : t.attribute_type = some "numerical" <;>
          simp [Node.split, h, hf, hc, hn]

/-- Witness for C6: a concrete non-leaf node makes `split` raise
`ValueError`. -/
theorem split_value_error_iff_not_leaf_witness :
    nonLeafNode.split (fun _ => none) = .error .valueError :=
  (split_value_error_iff_not_leaf nonLeafNode (fun _ => none)).mpr rfl

/-- C9: the embedded constructor discards its `is_root` and `parent`
arguments: every node it returns has `is_root = false` and
`parent = none`, whatever was passed. -/
theorem init_discards_is_root_and_parent (data : Option DFrame)
    (class_attribute : Option String) (is_root : Bool)
    (parent : Option Node) (parent_branch : Option Branch) (n : Node)
    (h : Node.init data class_attribute is_root parent parent_branch =
      .ok n) :
    n.is_root = false ∧ n.parent = none := by
  rcases data with _ | d
  · simp only [Node.init] at h
    cases h
    exact ⟨rfl, rfl⟩
  · rcases class_attribute with _ | ca
    · simp only [Node.init] at h
      cases h
      exact ⟨rfl, rfl⟩
    · simp only [Node.init] at h
      rcases hc : d.col ca with _ | vals
      · rw [hc] at h
        cases h
      · rw [hc] at h
        cases h
        exact ⟨rfl, rfl⟩

/-- Witness for C9: constructing with `is_root=True` and a concrete parent
still yields `is_root = false` and `parent = none`. -/
theorem init_discards_is_root_and_parent_witness :
    (Node.mk none none true false none [] [] [] none []).is_root = false ∧
      (Node.mk none none true false none [] [] [] none []).parent = none :=
  init_discards_is_root_and_parent none none true (some fallbackNode) none
    (Node.mk none none true false none [] [] [] none []) rfl

/-- C10: on a node with no children the all-children-are-leaves guard of
`prune` is vacuously satisfied, so `prune` never raises; when the strategy
accepts, `prune` returns `true` and the node is a leaf with empty
`children` and `child_branches`; when it declines, the node is returned
unchanged with `false`. -/
theorem prune_on_childless_node (n : Node) (f : Node → Bool)
    (h : n.children = []) :
    exOk (n.prune f) = true ∧
      (f n = true →
        n.prune f = .ok (n.pruned, true) ∧ (n.pruned).is_leaf = true ∧
          (n.pruned).children = [] ∧ (n.pruned).child_branches = []) ∧
      (f n = false → n.prune f = .ok (n, false)) := by
  rcases n with ⟨d, ca, l, r, p, c, cb, s, pb, t⟩
  simp only [Node.children] at h
  subst h
  cases hf : f (Node.mk d ca l r p [] cb s pb t) <;>
    simp [Node.prune, Node.children, Node.pruned, Node.is_leaf,
      Node.child_branches, hf, exOk]

/-- C3: the child-construction sequence of `Node.split` (wattle.py lines
246-252) produces a child whose `parent_branch.parent` is the splitting
node while the child's own `parent` field is `None`, because the
constructor discards its documented `parent` argument (wattle.py line
154); so `parent_branch.parent is node.parent` fails on every child
`split` would build. -/
theorem split_child_parent_field_mismatch :
    c3pair.1.parent = none ∧ c3pair.1.parent_branch = some c3pair.2 ∧
      c3pair.2.parent = scenarioRoot ∧
      some c3pair.2.parent ≠ c3pair.1.parent :=
  ⟨rfl, rfl, rfl, fun hcontra => by
    rw [show c3pair.1.parent = (none : Option Node) from rfl] at hcontra
    exact Option.noConfusion hcontra⟩

/-- C7: with `cost_sensitive` true, `num_errors` raises `ValueError`
exactly when the cost matrix misses one of the keys TP, TN, FP, FN, for
every node and every external cost model; with `cost_sensitive` false the
cost matrix is never consulted (the result does not depend on it); and a
matrix missing only FN concretely raises `ValueError`. -/
theorem num_errors_cost_matrix_check :
    (∀ (n : Node) (clp cln : Nat → Nat → List (String × Rat) → Rat)
        (cm : List (String × Rat)) (pc : String),
        n.num_errors clp cln true cm pc = .error .valueError ↔
          (["TP", "TN", "FP", "FN"].all fun k =>
            (cm.lookup k).isSome) = false) ∧
      (∀ (n : Node) (clp cln : Nat → Nat → List (String × Rat) → Rat)
        (cm cm' : List (String × Rat)) (pc : String),
        n.num_errors clp cln false cm pc =
          n.num_errors clp cln false cm' pc) ∧
      fallbackNode.num_errors (fun _ _ _ => 0) (fun _ _ _ => 0) true
        [("TP", 1), ("TN", 0), ("FP", 1)] "x" = .error .valueError := by
  refine ⟨?_, ?_, ?_⟩
  · intro n clp cln cm pc
    cases hall : (["TP", "TN", "FP", "FN"].all fun k =>
        (cm.lookup k).isSome) with
    | false => simp [Node.num_errors, hall]
    | true =>
      cases hl : n.class_supports.lookup pc with
      | none => simp [Node.num_errors, hall, Node.num_positive, hl]
      | some v =>
        by_cases hle : clp v (n.num_negative pc) cm ≤
            cln v (n.num_negative pc) cm <;>
          simp [Node.num_errors, hall, Node.num_positive, hl, hle]
  · intro n clp cln cm cm' pc
    rfl
  · rfl

/-- Witness for C7: deleting the TP key from a complete matrix makes a
concrete cost-sensitive call raise `ValueError`. -/
theorem num_errors_cost_matrix_check_witness :
    suppNode.num_errors (fun _ _ _ => 1) (fun _ _ _ => 2) true
        [("TN", 0), ("FP", 1), ("FN", 5)] "Y" = .error .valueError :=
  (num_errors_cost_matrix_check.1 suppNode (fun _ _ _ => 1) (fun _ _ _ => 2)
    [("TN", 0), ("FP", 1), ("FN", 5)] "Y").mpr rfl

/-- Witness for C10: pruning a concrete childless node with an
always-accepting strategy succeeds and leaves a leaf with no children and
no child branches. -/
theorem prune_on_childless_node_witness :
    exOk (fallbackNode.prune (fun _ => true)) = true ∧
      ((fun _ => true) fallbackNode = true →
        fallbackNode.prune (fun _ => true) =
            .ok (fallbackNode.pruned, true) ∧
          (fallbackNode.pruned).is_leaf = true ∧
          (fallbackNode.pruned).children = [] ∧
          (fallbackNode.pruned).child_branches = []) ∧
      ((fun _ => true) fallbackNode = false →
        fallbackNode.prune (fun _ => true) = .ok (fallbackNode, false)) :=
  prune_on_childless_node fallbackNode (fun _ => true) rfl

/-- The midpoint list of a column is one shorter than its unique-value
list. -/
theorem length_midpoints (u : List Rat) :
    (midpoints u).length = u.length - 1 := by
  simp [midpoints]

/-- `pdUniqueAux` counts the distinct values of the column outside the
accumulator. -/
theorem pdUniqueAux_length (l : List Rat) :
    ∀ seen : List Rat,
      (pdUniqueAux seen l).length = (l.toFinset \ seen.toFinset).card := by
  induction l with
  | nil => intro seen; simp [pdUniqueAux]
  | cons x xs ih =>
    intro seen
    by_cases hx : x ∈ seen
    · have hxm : x ∈ seen.toFinset := List.mem_toFinset.mpr hx
      simp only [pdUniqueAux, if_pos hx, ih seen, List.toFinset_cons,
        Finset.insert_sdiff_of_mem _ hxm]
    · have hxm : x ∉ seen.toFinset := fun hc => hx (List.mem_toFinset.mp hc)
      simp only [pdUniqueAux, if_neg hx, List.length_cons, ih (x :: seen),
        List.toFinset_cons, Finset.sdiff_insert,
        Finset.insert_sdiff_of_not_mem _ hxm]
      by_cases hmem : x ∈ xs.toFinset \ seen.toFinset
      · rw [Finset.card_erase_of_mem hmem, Finset.insert_eq_self.mpr hmem]
        have hpos : 0 < (xs.toFinset \ seen.toFinset).card :=
          Finset.card_pos.mpr ⟨x, hmem⟩
        omega
      · rw [Finset.erase_eq_of_not_mem hmem,
          Finset.card_insert_of_not_mem hmem]

/-- `pdUnique` has exactly one entry per distinct value of the column. -/
theorem pdUnique_length (l : List Rat) :
    (pdUnique l).length = l.toFinset.card := by
  rw [pdUnique, pdUniqueAux_length l []]
  simp

/-- C5 (amended): `get_possible_splits` enumerates, per numerical column
with `k` distinct observed values, exactly `k - 1` numerical candidates
whose split values are the midpoints between adjacent distinct values in
order of first appearance (pandas `unique` order — not sorted); on the
scenario data the produced thresholds are `65, 85, 75` for `LOC` followed
by `1/2` for the (also numerically-typed) class column `Defective`. -/
theorem get_possible_splits_appearance_midpoints :
    (∀ (name : String) (vals : List Rat) (n : Node),
        Node.init (some ⟨[(name, vals)]⟩) none false none none = .ok n →
        vals ≠ [] →
        n.get_possible_splits =
            .ok ((midpoints (pdUnique vals)).map fun v =>
              ⟨some "numerical", some name, some v, none⟩) ∧
          (midpoints (pdUnique vals)).length + 1 = vals.toFinset.card) ∧
      scenarioRoot.get_possible_splits = .ok
        [⟨some "numerical", some "LOC", some 65, none⟩,
         ⟨some "numerical", some "LOC", some 85, none⟩,
         ⟨some "numerical", some "LOC", some 75, none⟩,
         ⟨some "numerical", some "Defective", some (1 / 2), none⟩] := by
  constructor
  · intro name vals n h hne
    simp only [Node.init] at h
    cases h
    constructor
    · simp [Node.get_possible_splits, Node.data_points,
        Node.attribute_types, attribute_types_of, intInStrList, columnsOf,
        DFrame.columns, DFrame.col, List.lookup, List.range_succ,
        List.range_zero, List.flatMap_cons, List.flatMap_nil,
        beq_self_eq_true]
    · rw [length_midpoints, pdUnique_length]
      have hpos : 0 < vals.toFinset.card := by
        rcases vals with _ | ⟨a, as⟩
        · exact absurd rfl hne
        · exact Finset.card_pos.mpr ⟨a, by simp⟩
      omega
  · have hm1 : midpoints (pdUnique [(50 : Rat), 80, 90, 60]) =
        [65, 85, 75] := by
      have hu : pdUnique [(50 : Rat), 80, 90, 60] = [50, 80, 90, 60] := by
        decide
      rw [hu]
      simp only [midpoints, List.drop_one, List.tail_cons, List.dropLast]
      norm_num
    have hm2 : midpoints (pdUnique [(0 : Rat), 1, 1, 0]) = [1 / 2] := by
      have hu : pdUnique [(0 : Rat), 1, 1, 0] = [0, 1] := by decide
      rw [hu]
      simp only [midpoints, List.drop_one, List.tail_cons, List.dropLast]
      norm_num
    simp [scenarioRoot, scenarioFrame, Node.init, DFrame.col, DFrame.columns,
      List.lookup, attribute_types_of, intInStrList,
      Node.get_possible_splits, Node.data_points, Node.attribute_types,
      List.range_succ, List.range_zero, List.flatMap_cons,
      List.flatMap_nil, hm1, hm2]

/-- Witness for C5: on a two-valued column observed as `3` then `1`, the
single candidate threshold is the midpoint `2`, and the count is
`k - 1 = 1`. -/
theorem get_possible_splits_appearance_midpoints_witness :
    witnessColumnNode.get_possible_splits =
        .ok ((midpoints (pdUnique [3, 1])).map fun v =>
          ⟨some "numerical", some "X", some v, none⟩) ∧
      (midpoints (pdUnique [3, 1])).length + 1 =
        ([3, 1] : List Rat).toFinset.card :=
  get_possible_splits_appearance_midpoints.1 "X" [3, 1] witnessColumnNode
    rfl (by decide)

/-- C5 (counterexample): on the scenario records `(50,0), (80,1), (90,1),
(60,0)` the embedded `get_possible_splits` yields the thresholds
`65, 85, 75, 1/2` — the claimed sorted-midpoint threshold `55.0` (and
`70.0`) is never produced, because `unique()` returns values in order of
first appearance, unsorted. -/
theorem get_possible_splits_missing_sorted_threshold :
    (scenarioRoot.get_possible_splits.toOption.getD []).map
        Split_Test.split_value =
      [some 65, some 85, some 75, some (1 / 2)] ∧
      ¬ some (55 : Rat) ∈
        (scenarioRoot.get_possible_splits.toOption.getD []).map
          Split_Test.split_value ∧
      ¬ some (70 : Rat) ∈
        (scenarioRoot.get_possible_splits.toOption.getD []).map
          Split_Test.split_value := by
  have hm1 : midpoints (pdUnique [(50 : Rat), 80, 90, 60]) =
      [65, 85, 75] := by
    have hu : pdUnique [(50 : Rat), 80, 90, 60] = [50, 80, 90, 60] := by
      decide
    rw [hu]
    simp only [midpoints, List.drop_one, List.tail_cons, List.dropLast]
    norm_num
  have hm2 : midpoints (pdUnique [(0 : Rat), 1, 1, 0]) = [1 / 2] := by
    have hu : pdUnique [(0 : Rat), 1, 1, 0] = [0, 1] := by decide
    rw [hu]
    simp only [midpoints, List.drop_one, List.tail_cons, List.dropLast]
    norm_num
  have heval : (scenarioRoot.get_possible_splits.toOption.getD []).map
      Split_Test.split_value = [some 65, some 85, some 75, some (1 / 2)] := by
    simp [scenarioRoot, scenarioFrame, Node.init, DFrame.col, DFrame.columns,
      List.lookup, attribute_types_of, intInStrList,
      Node.get_possible_splits, Node.data_points, Node.attribute_types,
      List.range_succ, List.range_zero, List.flatMap_cons,
      List.flatMap_nil, hm1, hm2, Except.toOption]
  refine ⟨heval, ?_, ?_⟩ <;> rw [heval] <;> norm_num

end Wattle
